import Mathlib

/-!
Verification of the klsp editor-integration snippets.

The repository consists of three editor-integration snippets for the
external `klsp` language-server binary:
  * `src/e/code/s/e.ts`      - a VS Code extension stub (activate / deactivate);
  * `src/e/vim/example.lua`  - a Neovim nvim-lspconfig registration;
  * `src/unnamed/part_001`   - an Emacs lsp-mode registration;
plus `src/unnamed/part_000`, a README embedding a near-copy of the Lua
snippet.

The embedding below translates each snippet into Lean data.  Third-party
client-library APIs (vscode-languageclient, nvim-lspconfig, lsp-mode) are
modelled as the data the snippets hand to them, together with a trace of
the calls the snippets issue.
-/

namespace Klsp

/-! ## VS Code extension (`src/e/code/s/e.ts`)

`TransportKind` from vscode-languageclient; the snippet only ever uses
`stdio`, but the enumeration has four members. -/

inductive TransportKind where
  | stdio
  | ipc
  | pipe
  | socket
deriving DecidableEq, Repr

/-- An `Executable` server description from vscode-languageclient: a
command, optional argument list and optional transport.  The TS object
literals on lines 11-12 set `command` and `transport` and leave `args`
absent, hence the `Option` fields. `command` is itself an `Option` because
the snippet feeds it `config.get<string>(...)`, which may be undefined. -/
structure Executable where
  command : Option String
  args : Option (List String)
  transport : Option TransportKind
deriving DecidableEq, Repr

/-- `ServerOptions` in the run/debug form used on lines 10-13. -/
structure ServerOptions where
  run : Executable
  debug : Executable
deriving DecidableEq, Repr

/-- One entry of a document selector, e.g. `{ scheme: 'file', language: 'k' }`. -/
structure DocumentFilter where
  scheme : String
  language : String
deriving DecidableEq, Repr

/-- The `synchronize` sub-object of the client options: the snippet only
sets `fileEvents` to a file-system watcher on a glob pattern, modelled by
the glob string handed to `createFileSystemWatcher`. -/
structure SynchronizeOptions where
  fileEvents : String
deriving DecidableEq, Repr

/-- `LanguageClientOptions` as populated on lines 15-20. -/
structure LanguageClientOptions where
  documentSelector : List DocumentFilter
  synchronize : SynchronizeOptions
deriving DecidableEq, Repr

/-- A `LanguageClient` value: the four constructor arguments of
`new LanguageClient('klsp', 'K Language Server', serverOptions, clientOptions)`. -/
structure LanguageClient where
  id : String
  name : String
  serverOptions : ServerOptions
  clientOptions : LanguageClientOptions
deriving DecidableEq, Repr

/-- Calls the extension issues into the vscode-languageclient library. -/
inductive ClientCall where
  | start (c : LanguageClient)
  | stop (c : LanguageClient)
deriving DecidableEq, Repr

/-- The module-level mutable state of `e.ts`: the single
`let client: LanguageClient;` declaration on line 5, initially undefined. -/
structure ModuleState where
  client : Option LanguageClient
deriving DecidableEq, Repr

/-- The state at module load: `let client` is still undefined. -/
def initialModuleState : ModuleState := { client := none }

/-- The editor configuration is modelled as a map from setting keys to
optional string values; `config.get<string>(key)` is application of this
map. -/
def Config : Type := String → Option String

/-- `activate` from `e.ts` lines 7-24, translated statement by statement:
read `klsp.path` from the configuration, build run/debug server options
with stdio transport, build client options selecting language `k` on the
`file` scheme with a `**/.clientrc` watcher, construct the client and call
`start` on it.  Line 22 reads `const client = new LanguageClient(...)`:
the `const` declares a new local that shadows the module-level
`let client` of line 5, so the module state is returned unchanged.  The
second component is the trace of library calls made. -/
def activate (config : Config) (st : ModuleState) : ModuleState × List ClientCall :=
  let serverPath : Option String := config "klsp.path"
  let serverOptions : ServerOptions :=
    { run := { command := serverPath, args := none, transport := some TransportKind.stdio }
      debug := { command := serverPath, args := none, transport := some TransportKind.stdio } }
  let clientOptions : LanguageClientOptions :=
    { documentSelector := [{ scheme := "file", language := "k" }]
      synchronize := { fileEvents := "**/.clientrc" } }
  let client : LanguageClient :=
    { id := "klsp", name := "K Language Server"
      serverOptions := serverOptions, clientOptions := clientOptions }
  (st, [ClientCall.start client])

/-- `deactivate` from `e.ts` lines 26-31: if the module-level `client` is
absent, return undefined (`none`); otherwise return the promise of
`client.stop()`, modelled as the stop call issued. -/
def deactivate (st : ModuleState) : Option ClientCall :=
  match st.client with
  | none => none
  | some c => some (ClientCall.stop c)

/-! ## Neovim registration (`src/e/vim/example.lua`, and the README copy
in `src/unnamed/part_000`) -/

/-- The root-directory-detection strategy a nvim-lspconfig default config
names.  Both Lua snippets set the field to a library routine called
`find_git_ancestor` (the routine that walks upward from the current file
until a directory containing a git root is found); `example.lua` line 8
takes it from the `lspconfig/util` module, the README variant (part_000
line 13) from `lspconfig.configs`. -/
inductive RootDirStrategy where
  | find_git_ancestor
deriving DecidableEq, Repr

/-- A nvim-lspconfig `default_config` table with the fields the snippets
set. -/
structure LuaDefaultConfig where
  cmd : List String
  cmd_env : List (String × String)
  filetypes : List String
  root_dir : RootDirStrategy
  single_file_support : Bool
deriving DecidableEq, Repr

/-- The `default_config` table assigned to `configs.k` in
`src/e/vim/example.lua` lines 3-11. -/
def k_default_config : LuaDefaultConfig :=
  { cmd := ["PATH_TO_KLSP"]
    cmd_env := []
    filetypes := ["k"]
    root_dir := RootDirStrategy.find_git_ancestor
    single_file_support := true }

/-- The `default_config` table of the README's Lua snippet
(`src/unnamed/part_000` lines 8-16); identical to `k_default_config`
except that its `root_dir` expression names `find_git_ancestor` on the
`lspconfig.configs` module instead of `lspconfig/util`. -/
def readme_default_config : LuaDefaultConfig :=
  { cmd := ["PATH_TO_KLSP"]
    cmd_env := []
    filetypes := ["k"]
    root_dir := RootDirStrategy.find_git_ancestor
    single_file_support := true }

/-- The effect of running `example.lua`: the configuration registry after
`configs.k = { default_config = ... }`, and the list of config names on
which `.setup { }` was called (line 12). -/
structure LspconfigState where
  configs : List (String × LuaDefaultConfig)
  setup_calls : List String
deriving DecidableEq, Repr

/-- State produced by running `src/e/vim/example.lua` top to bottom. -/
def example_lua_state : LspconfigState :=
  { configs := [("k", k_default_config)]
    setup_calls := ["k"] }

/-- Behaviour of the host library nvim-lspconfig (not code of this
repository): a client is attached to a buffer when a root directory was
detected, or, failing that, when the config sets `single_file_support`. -/
def lspconfig_attaches (cfg : LuaDefaultConfig) (root_found : Bool) : Bool :=
  root_found || cfg.single_file_support

/-! ## Emacs registration (`src/unnamed/part_001`) -/

/-- Package-bootstrap actions the Emacs snippet can take (lines 3-8). -/
inductive PackageAction where
  | refresh_contents
  | install (pkg : String)
deriving DecidableEq, Repr

/-- Lines 6-8 of the Emacs snippet:
`(unless (package-installed-p 'lsp-mode) (package-refresh-contents) (package-install 'lsp-mode))`.
Given whether lsp-mode is already installed, the actions taken. -/
def ensure_lsp_mode (installed : Bool) : List PackageAction :=
  if installed then [] else [PackageAction.refresh_contents, PackageAction.install "lsp-mode"]

/-- A connection description for lsp-mode; the snippet only builds a
standard-input/output connection, which carries the spawn command list. -/
inductive LspConnection where
  | stdio (command : List String)
deriving DecidableEq, Repr

/-- `lsp-stdio-connection` applied to a lone command string, as on line 13
of the Emacs snippet: the process is spawned from that one string, so the
command list is the singleton of the path. -/
def lsp_stdio_connection (command : String) : LspConnection :=
  LspConnection.stdio [command]

/-- The `make-lsp-client` record built on lines 13-15. -/
structure EmacsLspClient where
  new_connection : LspConnection
  major_modes : List String
  server_id : String
deriving DecidableEq, Repr

/-- The lsp-mode global state the snippet mutates: the language-id alist,
the registered clients, and the mode hooks added. -/
structure EmacsLspState where
  language_id_configuration : List (String × String)
  registered_clients : List EmacsLspClient
  hooks : List (String × String)
deriving DecidableEq, Repr

/-- State produced by running `src/unnamed/part_001` top to bottom
(after the package bootstrap): line 11 adds `(k-language . "k")` to the
language-id alist, lines 12-15 register the client, line 16 adds `lsp` to
`k-mode-hook`. -/
def emacs_lsp_state : EmacsLspState :=
  { language_id_configuration := [("k-language", "k")]
    registered_clients :=
      [{ new_connection := lsp_stdio_connection "path-to-klsp-binary"
         major_modes := ["k-mode"]
         server_id := "klsp" }]
    hooks := [("k-mode-hook", "lsp")] }

/-- A concrete configuration with a valid `klsp.path` setting, used as a
test input. -/
def sampleConfig : Config :=
  fun key => if key = "klsp.path" then some "/usr/bin/klsp" else none

/-- The client value `activate` constructs under `sampleConfig`, spelled
out; used as a concrete input below. -/
def sampleClient : LanguageClient :=
  { id := "klsp", name := "K Language Server"
    serverOptions :=
      { run := { command := some "/usr/bin/klsp", args := none, transport := some TransportKind.stdio }
        debug := { command := some "/usr/bin/klsp", args := none, transport := some TransportKind.stdio } }
    clientOptions :=
      { documentSelector := [{ scheme := "file", language := "k" }]
        synchronize := { fileEvents := "**/.clientrc" } } }

end Klsp

/-! ## Theorems for the claims -/

namespace Klsp

/-- C1 (code_bug evidence): after `activate` runs on the initial module
state with any well-formed configuration, `deactivate` returns undefined
instead of stopping the client.  Line 22 of `e.ts` declares
`const client`, a local shadowing the module-level `let client` of line 5,
so the module-level handle is never assigned and `deactivate` takes its
early-return-undefined branch — contradicting the claim (and the spec's
intent) that deactivation delegates to the library's stop. -/
theorem C1_deactivate_after_activate_is_undefined :
    deactivate (activate sampleConfig initialModuleState).1 = none := rfl

/-- C2: whenever the `klsp.path` setting holds a path string, `activate`
issues exactly one `start` call, on a client whose run and debug server
options both use stdio transport and whose document selector matches
language `k` on the `file` scheme. -/
theorem C2_valid_path_starts_stdio_k_client (config : Config) (p : String)
    (h : config "klsp.path" = some p) (st : ModuleState) :
    ∃ c : LanguageClient,
      (activate config st).2 = [ClientCall.start c] ∧
      c.serverOptions.run.transport = some TransportKind.stdio ∧
      c.serverOptions.debug.transport = some TransportKind.stdio ∧
      c.serverOptions.run.command = some p ∧
      c.clientOptions.documentSelector = [{ scheme := "file", language := "k" }] := by
  refine ⟨_, rfl, rfl, rfl, ?_, rfl⟩
  simp [activate, h]

/-- C2 witness: the concrete configuration `sampleConfig` holds the path
`/usr/bin/klsp`, and the theorem applies to it. -/
theorem C2_valid_path_starts_stdio_k_client_witness :
    ∃ c : LanguageClient,
      (activate sampleConfig initialModuleState).2 = [ClientCall.start c] ∧
      c.serverOptions.run.transport = some TransportKind.stdio ∧
      c.serverOptions.debug.transport = some TransportKind.stdio ∧
      c.serverOptions.run.command = some "/usr/bin/klsp" ∧
      c.clientOptions.documentSelector = [{ scheme := "file", language := "k" }] :=
  C2_valid_path_starts_stdio_k_client sampleConfig "/usr/bin/klsp" rfl initialModuleState

/-- C3: each of the three snippets declares the language identifier `k`,
declares a standard-input/output spawn command for the server, and
registers the resulting client configuration with its host editor's
language-client subsystem: the Lua snippet registers `configs.k` (with
filetype `k` and the spawn command list) and calls `setup` on it; the
Emacs snippet maps `k-language` to `"k"` and registers a client with a
stdio connection; the VS Code snippet starts a client with stdio
transport for both variants and a document selector on language `k`. -/
theorem C3_three_snippets_declare_k_stdio_and_register :
    (example_lua_state.configs = [("k", k_default_config)] ∧
     k_default_config.filetypes = ["k"] ∧
     k_default_config.cmd = ["PATH_TO_KLSP"] ∧
     example_lua_state.setup_calls = ["k"]) ∧
    (emacs_lsp_state.language_id_configuration = [("k-language", "k")] ∧
     ∃ cl : EmacsLspClient,
       emacs_lsp_state.registered_clients = [cl] ∧
       cl.new_connection = LspConnection.stdio ["path-to-klsp-binary"] ∧
       cl.major_modes = ["k-mode"]) ∧
    (∀ (config : Config) (st : ModuleState),
      ∃ c : LanguageClient,
        (activate config st).2 = [ClientCall.start c] ∧
        c.serverOptions.run.transport = some TransportKind.stdio ∧
        c.serverOptions.debug.transport = some TransportKind.stdio ∧
        c.clientOptions.documentSelector = [{ scheme := "file", language := "k" }]) := by
  refine ⟨⟨rfl, rfl, rfl, rfl⟩, ⟨rfl, _, rfl, rfl, rfl⟩, ?_⟩
  intro config st
  exact ⟨_, rfl, rfl, rfl, rfl⟩

/-- C4: every snippet launches the server executable with an empty
argument list: the Lua `cmd` is a one-element list, the Emacs stdio
connection is built from the path alone, and the VS Code run and debug
executables carry no `args`. -/
theorem C4_no_arguments_beyond_path :
    k_default_config.cmd = ["PATH_TO_KLSP"] ∧
    readme_default_config.cmd = ["PATH_TO_KLSP"] ∧
    (∃ cl : EmacsLspClient,
      emacs_lsp_state.registered_clients = [cl] ∧
      cl.new_connection = lsp_stdio_connection "path-to-klsp-binary" ∧
      lsp_stdio_connection "path-to-klsp-binary" = LspConnection.stdio ["path-to-klsp-binary"]) ∧
    (∀ (config : Config) (st : ModuleState),
      ∃ c : LanguageClient,
        (activate config st).2 = [ClientCall.start c] ∧
        c.serverOptions.run.args = none ∧
        c.serverOptions.debug.args = none) := by
  refine ⟨rfl, rfl, ⟨_, rfl, rfl, rfl⟩, ?_⟩
  intro config st
  exact ⟨_, rfl, rfl, rfl⟩

/-- C5: the VS Code extension's server command comes exclusively from the
`klsp.path` configuration setting: the started client's run and debug
commands both equal the configuration value at `klsp.path`, and two
configurations that agree on `klsp.path` make `activate` behave
identically. -/
theorem C5_path_exclusively_from_klsp_path (config : Config) (st : ModuleState) :
    (∃ c : LanguageClient,
      (activate config st).2 = [ClientCall.start c] ∧
      c.serverOptions.run.command = config "klsp.path" ∧
      c.serverOptions.debug.command = config "klsp.path") ∧
    (∀ other : Config, other "klsp.path" = config "klsp.path" →
      activate other st = activate config st) := by
  refine ⟨⟨_, rfl, rfl, rfl⟩, ?_⟩
  intro other h
  simp [activate, h]

/-- C5 witness: instantiated at the sample configuration, with the
agreement hypothesis discharged for a configuration defined only at
`klsp.path`. -/
theorem C5_path_exclusively_from_klsp_path_witness :
    (∃ c : LanguageClient,
      (activate sampleConfig initialModuleState).2 = [ClientCall.start c] ∧
      c.serverOptions.run.command = sampleConfig "klsp.path" ∧
      c.serverOptions.debug.command = sampleConfig "klsp.path") ∧
    (∀ other : Config, other "klsp.path" = sampleConfig "klsp.path" →
      activate other initialModuleState = activate sampleConfig initialModuleState) :=
  C5_path_exclusively_from_klsp_path sampleConfig initialModuleState

/-- C6: both Neovim snippets set the root-directory-detection strategy to
the library routine `find_git_ancestor`, which walks upward from the
current file until a git root is found. -/
theorem C6_root_dir_is_find_git_ancestor :
    k_default_config.root_dir = RootDirStrategy.find_git_ancestor ∧
    readme_default_config.root_dir = RootDirStrategy.find_git_ancestor :=
  ⟨rfl, rfl⟩

/-- C7 counterexample: the claim that the only conditional in the whole
supplied source is deactivate's absent-client check is false: the Emacs
snippet's package bootstrap (part_001 lines 6-8) branches on whether
lsp-mode is installed, taking different actions in the two cases. -/
theorem C7_counterexample_emacs_bootstrap_branches :
    ¬ (ensure_lsp_mode false = ensure_lsp_mode true) := by decide

/-- C7 (amended): no function in the supplied source catches, retries,
recovers from, or reports an error: `activate` has no error branch — for
every configuration it returns normally, issuing exactly one `start` call
and leaving the module state unchanged — and the only conditionals in the
supplied source are deactivate's check for an absent client (undefined
exactly when the client handle is absent, a stop call otherwise) and the
Emacs snippet's guard installing lsp-mode when it is not already
installed. -/
theorem C7_no_error_handling_and_conditionals :
    (∀ (config : Config) (st : ModuleState),
      (activate config st).1 = st ∧
      ∃ c : LanguageClient, (activate config st).2 = [ClientCall.start c]) ∧
    (∀ st : ModuleState,
      (deactivate st = none ↔ st.client = none) ∧
      ∀ c : LanguageClient, st.client = some c → deactivate st = some (ClientCall.stop c)) ∧
    (ensure_lsp_mode true = [] ∧
     ensure_lsp_mode false = [PackageAction.refresh_contents, PackageAction.install "lsp-mode"]) := by
  refine ⟨fun config st => ⟨rfl, _, rfl⟩, ?_, rfl, rfl⟩
  intro st
  refine ⟨?_, ?_⟩
  · cases hc : st.client with
    | none => simp [deactivate, hc]
    | some c => simp [deactivate, hc]
  · intro c h
    simp [deactivate, h]

/-- C7 (amended) witness: the deactivate characterization applied at a
concrete state holding a concrete client, discharging the
`st.client = some c` hypothesis there. -/
theorem C7_no_error_handling_and_conditionals_witness :
    deactivate { client := some sampleClient } = some (ClientCall.stop sampleClient) :=
  (C7_no_error_handling_and_conditionals.2.1 { client := some sampleClient }).2
    sampleClient rfl

/-- C8: when the `klsp.path` setting is absent, `activate` still
proceeds: the undefined value is used unchecked as the command of both the
run and debug executables, and the client is still constructed and
started. -/
theorem C8_absent_path_still_starts (config : Config) (st : ModuleState)
    (h : config "klsp.path" = none) :
    ∃ c : LanguageClient,
      (activate config st).2 = [ClientCall.start c] ∧
      c.serverOptions.run.command = none ∧
      c.serverOptions.debug.command = none := by
  refine ⟨_, rfl, ?_, ?_⟩ <;> simp [activate, h]

/-- C8 witness: the everywhere-empty configuration has no `klsp.path`
entry, and the theorem applies to it. -/
theorem C8_absent_path_still_starts_witness :
    ∃ c : LanguageClient,
      (activate (fun _ => none) initialModuleState).2 = [ClientCall.start c] ∧
      c.serverOptions.run.command = none ∧
      c.serverOptions.debug.command = none :=
  C8_absent_path_still_starts (fun _ => none) initialModuleState rfl

/-- C9: in the VS Code extension the run and debug server options of the
started client are equal as values, for every configuration: a debug
launch is configured identically to a normal launch. -/
theorem C9_run_equals_debug (config : Config) (st : ModuleState) :
    ∃ c : LanguageClient,
      (activate config st).2 = [ClientCall.start c] ∧
      c.serverOptions.run = c.serverOptions.debug :=
  ⟨_, rfl, rfl⟩

/-- C10: both Neovim snippets set `single_file_support` to true, so under
nvim-lspconfig's attach rule a client is created for a `k` file even when
root-directory detection finds no version-control ancestor. -/
theorem C10_single_file_support_true :
    k_default_config.single_file_support = true ∧
    readme_default_config.single_file_support = true ∧
    lspconfig_attaches k_default_config false = true ∧
    lspconfig_attaches readme_default_config false = true :=
  ⟨rfl, rfl, rfl, rfl⟩

end Klsp
